import Mathlib

/-!
Formal model of `src/agent.py` (livekit-agent): trigger-phrase detection and
dispatch engine.

Modelling conventions:
- Python strings are modelled as `List Char`; `str.lower()` as `pyLower`
  (`Char.toLower` on every character), `in` (substring test) as `<:+:` on the
  character lists, `str.strip()` as `pyStrip` with ASCII whitespace.
- The side effects of one classification cycle (the `asyncio.create_task` /
  `await` calls issued by `_handle_text_stream` and `_on_transcript`) are
  modelled as the list of `DispatchAction`s the handler issues, with the log
  lines kept alongside.  Python's set iteration order is unspecified, so the
  matched events are modelled as a duplicate-free list and every property
  proved below is order-independent.
- External I/O (the HTTP POST of `_post_event_sync`, the SIP provisioning
  request) is a collaborator: its outcome is an input of the model
  (`PostOutcome`), and the provisioning request value produced by
  `_dispatch_outbound_call` is the model's output.
- `os.getenv` results are `Option String` parameters; Python truthiness on a
  string (`if not s`) is emptiness/absence.
- `int(time.time())` is a `Nat` parameter `now` (whole seconds).
-/

namespace Agent

/-- agent.py line 31. -/
def OUTBOUND_PHONE_NUMBER : String := "+14083103927"

/-- agent.py line 33. -/
def EVENTS_API_PATH : String := "/api/events"

/-- agent.py lines 35-45: the phrase-to-event table, in source order. -/
def TRIGGER_PHRASES : List (String × String) :=
  [("weapon drawn", "weapon_drawn"),
   ("weapon out", "weapon_drawn"),
   ("gun drawn", "weapon_drawn"),
   ("shots fired", "shots_fired"),
   ("man down", "man_down"),
   ("officer down", "officer_down"),
   ("suspect down", "suspect_down"),
   ("camera blocked", "camera_blocked"),
   ("camera obscured", "camera_blocked")]

/-- `str.lower()` on a character list (agent.py line 49). -/
def pyLower (s : List Char) : List Char := s.map Char.toLower

/-- agent.py lines 48-50: lower the text, keep every table entry whose phrase
is a substring of the lowered text, return the (deduplicated) events. -/
def _extract_trigger_events (text : List Char) : List String :=
  (((TRIGGER_PHRASES.filter fun pe => decide (pe.1.data <:+: pyLower text)).map
    Prod.snd)).dedup

/-- One side effect issued by a classification cycle: a notify task
(`_send_event_to_chain`) or an outbound-call task (`_dispatch_outbound_call`). -/
inductive DispatchAction where
  | notify (event : String) (transcript : List Char) (room : String)
  | dispatchCall (transcript : List Char) (room : String)
  deriving DecidableEq

/-- Number of notify actions carrying event `e` in a cycle's action list. -/
def notifyCount (acts : List DispatchAction) (e : String) : Nat :=
  acts.countP fun a =>
    match a with
    | DispatchAction.notify ev _ _ => decide (ev = e)
    | DispatchAction.dispatchCall _ _ => false

/-- Number of outbound-call actions in a cycle's action list. -/
def dispatchCallCount (acts : List DispatchAction) : Nat :=
  acts.countP fun a =>
    match a with
    | DispatchAction.notify _ _ _ => false
    | DispatchAction.dispatchCall _ _ => true

/-- Observable outcome of one text-stream cycle: the log lines and the
dispatch actions it issued. -/
structure TextStreamResult where
  logs : List String
  actions : List DispatchAction
  deriving DecidableEq

/-- agent.py lines 169-216.  `readResult` is the outcome of
`await reader.read_all()`: `none` when the read raised, `some text` otherwise.
On read failure the handler logs and returns.  On success with nonempty text it
classifies, creates one notify task per matched event other than
`shots_fired`, and, when `shots_fired` matched, additionally awaits one notify
for it and creates one outbound-call task. -/
def _handle_text_stream (readResult : Option (List Char)) (room : String) :
    TextStreamResult :=
  match readResult with
  | none =>
    { logs := ["Text stream received", "Text stream read failed"], actions := [] }
  | some text =>
    if text = [] then { logs := ["Text stream received"], actions := [] }
    else
      let matched := _extract_trigger_events text
      { logs := ["Text stream received", "Text stream content"] ++
          (if "shots_fired" ∈ matched
           then ["Audio trigger detected in text stream"] else []),
        actions :=
          ((matched.filter fun e => decide (e ≠ "shots_fired")).map fun e =>
            DispatchAction.notify e text room) ++
          (if "shots_fired" ∈ matched then
            [DispatchAction.notify "shots_fired" text room,
             DispatchAction.dispatchCall text room]
           else []) }

/-- ASCII whitespace, as stripped by Python's `str.strip()`. -/
def isPySpace (c : Char) : Bool :=
  c = ' ' || c = '\t' || c = '\n' || c = '\x0d' || c = '\x0b' || c = '\x0c'

/-- `str.strip()` on a character list (agent.py line 230). -/
def pyStrip (s : List Char) : List Char :=
  ((s.dropWhile isPySpace).reverse.dropWhile isPySpace).reverse

/-- agent.py lines 228-246.  `transcript_text` models
`transcript.transcript` (`none` for Python `None`); `(... or "").strip()` is
`pyStrip` of `getD []`.  Empty stripped text returns early; non-final
transcripts are logged only; final transcripts get one notify task per matched
event and never an outbound-call task. -/
def _on_transcript (transcript_text : Option (List Char)) (is_final : Bool)
    (room : String) : List DispatchAction :=
  let text := pyStrip (transcript_text.getD [])
  if text = [] then []
  else if is_final then
    (_extract_trigger_events text).map fun e => DispatchAction.notify e text room
  else []

/-- Outcome of the external HTTP POST performed by `_post_event_sync`
(agent.py lines 53-63): a response with its status, or a raised transport
exception. -/
inductive PostOutcome where
  | response (status : Nat) (body : String)
  | exn (message : String)
  deriving DecidableEq

/-- How `_send_event_to_chain` classifies one notify attempt. -/
inductive NotifyResult where
  | skipped
  | published (status : Nat)
  | failedStatus (status : Nat)
  | failedExn (message : String)
  deriving DecidableEq

/-- Observable outcome of one `_send_event_to_chain` call: how many HTTP POST
attempts were made, and the logged classification.  The function always
returns such a value: the `try/except` in the source means no exception
escapes to the caller. -/
structure NotifyRun where
  postAttempts : Nat
  result : NotifyResult
  deriving DecidableEq

/-- agent.py lines 269-293.  Skip (zero attempts) when the base URL is empty;
otherwise exactly one POST attempt, whose outcome is classified: status under
300 is published (success), 300 or more is a logged failure, a raised
transport error is a logged failure.  Never retried, never re-raised. -/
def _send_event_to_chain (base_url : String) (outcome : PostOutcome) :
    NotifyRun :=
  if base_url = "" then { postAttempts := 0, result := NotifyResult.skipped }
  else
    match outcome with
    | PostOutcome.response status _ =>
      if 300 ≤ status then
        { postAttempts := 1, result := NotifyResult.failedStatus status }
      else
        { postAttempts := 1, result := NotifyResult.published status }
    | PostOutcome.exn m =>
      { postAttempts := 1, result := NotifyResult.failedExn m }

/-- agent.py lines 116-124: the provisioning request value. -/
structure CreateSIPParticipantRequest where
  sip_trunk_id : String
  sip_call_to : String
  room_name : String
  participant_identity : String
  participant_name : String
  krisp_enabled : Bool
  wait_until_answered : Bool
  deriving DecidableEq

/-- Python `x or d` for an optional string `x`: `d` when `x` is `None` or
empty (agent.py line 113). -/
def pyOrStr (x : Option String) (d : String) : String :=
  match x with
  | some s => if s = "" then d else s
  | none => d

/-- agent.py line 114: the participant identity generated for one call
attempt, from the whole-second timestamp. -/
def participant_identity_of (now : Nat) : String :=
  "sip-alert-" ++ Nat.repr now

/-- agent.py lines 106-139.  `trunk_env` is `os.getenv("LIVEKIT_SIP_TRUNK_ID")`,
`sip_room_env` is `os.getenv("LIVEKIT_SIP_ROOM_NAME")`, `now` is
`int(time.time())`.  A missing or empty trunk id raises (`Except.error`)
before any provisioning request value is built; otherwise the provisioning
request handed to the telephony collaborator is returned. -/
def _dispatch_outbound_call (trunk_env : Option String)
    (room_name : Option String) (sip_room_env : Option String) (now : Nat) :
    Except String CreateSIPParticipantRequest :=
  match trunk_env with
  | none => Except.error "Missing LIVEKIT_SIP_TRUNK_ID for outbound SIP calls."
  | some trunk_id =>
    if trunk_id = "" then
      Except.error "Missing LIVEKIT_SIP_TRUNK_ID for outbound SIP calls."
    else
      Except.ok
        { sip_trunk_id := trunk_id,
          sip_call_to := OUTBOUND_PHONE_NUMBER,
          room_name := pyOrStr room_name (sip_room_env.getD "sip-alerts"),
          participant_identity := participant_identity_of now,
          participant_name := "Shots Fired Alert",
          krisp_enabled := true,
          wait_until_answered := false }

/-- The room of the provisioning request, if one was built. -/
def callRequestRoom :
    Except String CreateSIPParticipantRequest → Option String
  | Except.ok r => some r.room_name
  | Except.error _ => none

/-- The participant identity of the provisioning request, if one was built. -/
def callRequestIdentity :
    Except String CreateSIPParticipantRequest → Option String
  | Except.ok r => some r.participant_identity
  | Except.error _ => none

/-! ### Helper lemmas: the classifier -/

theorem mem_extract_iff (text : List Char) (e : String) :
    e ∈ _extract_trigger_events text ↔
      ∃ p, (p, e) ∈ TRIGGER_PHRASES ∧ p.data <:+: pyLower text := by
  simp only [_extract_trigger_events, List.mem_dedup, List.mem_map,
    List.mem_filter, decide_eq_true_eq]
  constructor
  · rintro ⟨⟨p, ev⟩, ⟨hmem, hinf⟩, rfl⟩
    exact ⟨p, hmem, hinf⟩
  · rintro ⟨p, hmem, hinf⟩
    exact ⟨(p, e), ⟨hmem, hinf⟩, rfl⟩

theorem nodup_extract (text : List Char) : (_extract_trigger_events text).Nodup :=
  List.nodup_dedup _

theorem extract_eq_nil_of_no_match (text : List Char)
    (h : ∀ pe ∈ TRIGGER_PHRASES, ¬ pe.1.data <:+: pyLower text) :
    _extract_trigger_events text = [] := by
  have hf : (TRIGGER_PHRASES.filter fun pe =>
      decide (pe.1.data <:+: pyLower text)) = [] :=
    List.filter_eq_nil_iff.mpr fun pe hpe => by simpa using h pe hpe
  simp [_extract_trigger_events, hf]

theorem phrase_data_ne_nil : ∀ pe ∈ TRIGGER_PHRASES, pe.1.data ≠ [] := by decide

theorem text_ne_nil_of_mem_extract {text : List Char} {e : String}
    (h : e ∈ _extract_trigger_events text) : text ≠ [] := by
  rintro rfl
  obtain ⟨p, hmem, hinf⟩ := (mem_extract_iff [] e).mp h
  obtain ⟨s, t, hst⟩ := hinf
  simp [pyLower] at hst
  exact phrase_data_ne_nil (p, e) hmem hst.2.1

/-! ### Helper lemmas: counting dispatch actions -/

theorem countP_decide_eq_count (l : List String) (e : String) :
    (l.countP fun x => decide (x = e)) = l.count e := by
  induction l with
  | nil => rfl
  | cons a l ih =>
    by_cases h : a = e <;>
      simp [List.countP_cons, List.count_cons, h, ih]

theorem notifyCount_map_notify (l : List String) (t : List Char) (r e : String) :
    notifyCount (l.map fun ev => DispatchAction.notify ev t r) e =
      l.countP fun x => decide (x = e) := by
  unfold notifyCount
  rw [List.countP_map]
  rfl

theorem dispatchCallCount_map_notify (l : List String) (t : List Char)
    (r : String) :
    dispatchCallCount (l.map fun ev => DispatchAction.notify ev t r) = 0 := by
  simp [dispatchCallCount, List.countP_map, Function.comp]

theorem notifyCount_append (a b : List DispatchAction) (e : String) :
    notifyCount (a ++ b) e = notifyCount a e + notifyCount b e :=
  List.countP_append _ _ _

theorem dispatchCallCount_append (a b : List DispatchAction) :
    dispatchCallCount (a ++ b) = dispatchCallCount a + dispatchCallCount b :=
  List.countP_append _ _ _

/-! ### Helper lemmas: stripping -/

theorem pyStrip_eq_nil_of_all_space {s : List Char}
    (h : ∀ c ∈ s, isPySpace c = true) : pyStrip s = [] := by
  have h1 : s.dropWhile isPySpace = [] := List.dropWhile_eq_nil_iff.mpr h
  simp [pyStrip, h1]

/-! ### Helper lemmas: the text-stream cycle -/

theorem handle_text_stream_actions (text : List Char) (room : String)
    (h : text ≠ []) :
    (_handle_text_stream (some text) room).actions =
      (((_extract_trigger_events text).filter fun e =>
          decide (e ≠ "shots_fired")).map fun e =>
        DispatchAction.notify e text room) ++
      (if "shots_fired" ∈ _extract_trigger_events text then
        [DispatchAction.notify "shots_fired" text room,
         DispatchAction.dispatchCall text room]
       else []) := by
  simp [_handle_text_stream, h]

theorem stream_notifyCount_other {text : List Char} {room e : String}
    (he : e ∈ _extract_trigger_events text) (hne : e ≠ "shots_fired") :
    notifyCount (_handle_text_stream (some text) room).actions e = 1 := by
  have htext := text_ne_nil_of_mem_extract he
  rw [handle_text_stream_actions text room htext, notifyCount_append,
    notifyCount_map_notify, List.countP_filter]
  have h1 : ((_extract_trigger_events text).countP fun a =>
      decide (a = e) && decide (a ≠ "shots_fired")) = 1 := by
    rw [List.countP_congr (q := fun a => decide (a = e))]
    · rw [countP_decide_eq_count]
      exact List.count_eq_one_of_mem (nodup_extract text) he
    · intro x _
      by_cases hx : x = e <;> simp [hx, hne]
  rw [h1]
  by_cases hs : "shots_fired" ∈ _extract_trigger_events text
  · rw [if_pos hs]
    simp [notifyCount, List.countP_cons, Ne.symm hne]
  · rw [if_neg hs]
    simp [notifyCount]

theorem stream_notifyCount_shots {text : List Char} {room : String}
    (hs : "shots_fired" ∈ _extract_trigger_events text) :
    notifyCount (_handle_text_stream (some text) room).actions "shots_fired" = 1 := by
  have htext := text_ne_nil_of_mem_extract hs
  rw [handle_text_stream_actions text room htext, notifyCount_append,
    notifyCount_map_notify, List.countP_filter, if_pos hs]
  have h1 : ((_extract_trigger_events text).countP fun a =>
      decide (a = "shots_fired") && decide (a ≠ "shots_fired")) = 0 := by
    rw [List.countP_eq_zero]
    intro a _
    by_cases hx : a = "shots_fired" <;> simp [hx]
  rw [h1]
  simp [notifyCount, List.countP_cons]

theorem stream_dispatchCallCount_shots {text : List Char} {room : String}
    (hs : "shots_fired" ∈ _extract_trigger_events text) :
    dispatchCallCount (_handle_text_stream (some text) room).actions = 1 := by
  have htext := text_ne_nil_of_mem_extract hs
  rw [handle_text_stream_actions text room htext, dispatchCallCount_append,
    dispatchCallCount_map_notify, if_pos hs]
  simp [dispatchCallCount, List.countP_cons]

theorem stream_dispatchCallCount_noshots (text : List Char) (room : String)
    (hs : "shots_fired" ∉ _extract_trigger_events text) :
    dispatchCallCount (_handle_text_stream (some text) room).actions = 0 := by
  by_cases h : text = []
  · subst h
    simp [_handle_text_stream, dispatchCallCount]
  · rw [handle_text_stream_actions text room h, dispatchCallCount_append,
      dispatchCallCount_map_notify, if_neg hs]
    simp [dispatchCallCount]

/-! ### Helper lemmas: the transcript cycle -/

theorem on_transcript_final_eq (raw : Option (List Char)) (room : String)
    (h : pyStrip (raw.getD []) ≠ []) :
    _on_transcript raw true room =
      (_extract_trigger_events (pyStrip (raw.getD []))).map fun e =>
        DispatchAction.notify e (pyStrip (raw.getD [])) room := by
  simp [_on_transcript, h]

theorem transcript_notifyCount {raw : Option (List Char)} {room e : String}
    (he : e ∈ _extract_trigger_events (pyStrip (raw.getD []))) :
    notifyCount (_on_transcript raw true room) e = 1 := by
  have hstrip := text_ne_nil_of_mem_extract he
  rw [on_transcript_final_eq raw room hstrip, notifyCount_map_notify,
    countP_decide_eq_count]
  exact List.count_eq_one_of_mem (nodup_extract _) he

theorem transcript_dispatchCallCount (raw : Option (List Char))
    (is_final : Bool) (room : String) :
    dispatchCallCount (_on_transcript raw is_final room) = 0 := by
  by_cases h : pyStrip (raw.getD []) = []
  · simp [_on_transcript, h, dispatchCallCount]
  · cases is_final
    · simp [_on_transcript, h, dispatchCallCount]
    · rw [on_transcript_final_eq raw room h]
      exact dispatchCallCount_map_notify _ _ _

theorem on_transcript_nonfinal (raw : Option (List Char)) (room : String) :
    _on_transcript raw false room = [] := by
  simp [_on_transcript]

theorem on_transcript_blank (raw : Option (List Char)) (is_final : Bool)
    (room : String) (h : pyStrip (raw.getD []) = []) :
    _on_transcript raw is_final room = [] := by
  simp [_on_transcript, h]

/-! ### Helper lemmas: decimal rendering of `Nat` is injective -/

/-- Value of a decimal digit character. -/
def decDigitVal (c : Char) : Nat := c.toNat - 48

/-- Read a decimal digit string back into a number. -/
def ofDecDigits (l : List Char) : Nat :=
  l.foldl (fun a c => 10 * a + decDigitVal c) 0

theorem toDigitsCore_append_nil (fuel : Nat) :
    ∀ (n : Nat) (ds : List Char),
      Nat.toDigitsCore 10 fuel n ds = Nat.toDigitsCore 10 fuel n [] ++ ds := by
  induction fuel with
  | zero => intro n ds; simp [Nat.toDigitsCore]
  | succ f ih =>
    intro n ds
    simp only [Nat.toDigitsCore]
    by_cases h : n / 10 = 0
    · simp [h]
    · rw [if_neg h, if_neg h, ih (n / 10) (Nat.digitChar (n % 10) :: ds),
        ih (n / 10) [Nat.digitChar (n % 10)]]
      simp

theorem ofDecDigits_append_singleton (l : List Char) (c : Char) :
    ofDecDigits (l ++ [c]) = 10 * ofDecDigits l + decDigitVal c := by
  simp [ofDecDigits, List.foldl_append]

theorem decDigitVal_digitChar {k : Nat} (h : k < 10) :
    decDigitVal (Nat.digitChar k) = k := by
  interval_cases k <;> rfl

theorem ofDecDigits_toDigitsCore :
    ∀ (fuel n : Nat), n < fuel →
      ofDecDigits (Nat.toDigitsCore 10 fuel n []) = n := by
  intro fuel
  induction fuel with
  | zero => intro n h; exact absurd h (Nat.not_lt_zero n)
  | succ f ih =>
    intro n hn
    simp only [Nat.toDigitsCore]
    by_cases h : n / 10 = 0
    · rw [if_pos h]
      have h10 : n < 10 := (Nat.div_eq_zero_iff (by norm_num)).mp h
      simp [ofDecDigits, Nat.mod_eq_of_lt h10, decDigitVal_digitChar h10]
    · have hne : n ≠ 0 := fun h0 => h (by simp [h0])
      have hlt : n / 10 < f := by
        have h1 : n / 10 < n := Nat.div_lt_self (Nat.pos_of_ne_zero hne) (by norm_num)
        omega
      rw [if_neg h, toDigitsCore_append_nil, ofDecDigits_append_singleton,
        decDigitVal_digitChar (Nat.mod_lt n (by norm_num)), ih (n / 10) hlt]
      exact Nat.div_add_mod n 10

theorem decimal_repr_injective {n m : Nat} (h : Nat.repr n = Nat.repr m) :
    n = m := by
  have hd : Nat.toDigitsCore 10 (n + 1) n [] = Nat.toDigitsCore 10 (m + 1) m [] :=
    congrArg String.data h
  have h1 := ofDecDigits_toDigitsCore (n + 1) n (Nat.lt_succ_self n)
  have h2 := ofDecDigits_toDigitsCore (m + 1) m (Nat.lt_succ_self m)
  rw [← h1, ← h2, hd]

theorem participant_identity_injective {n m : Nat} (hnm : n ≠ m) :
    participant_identity_of n ≠ participant_identity_of m := by
  intro h
  apply hnm
  apply decimal_repr_injective
  apply String.ext
  have hdata := congrArg String.data h
  simp only [participant_identity_of, String.data_append] at hdata
  exact List.append_cancel_left hdata

/-! ### Claim theorems -/

/-- C1: `_extract_trigger_events` returns exactly the set of event kinds whose
trigger phrases occur, case-insensitively and as substrings, in the text; each
kind appears at most once even when several synonymous phrases match; and for
a text containing none of the configured phrases it returns the empty set. -/
theorem C1_classifier_exact_set (text : List Char) :
    (_extract_trigger_events text).Nodup ∧
    (∀ e, e ∈ _extract_trigger_events text ↔
      ∃ p, (p, e) ∈ TRIGGER_PHRASES ∧ p.data <:+: pyLower text) ∧
    ((∀ pe ∈ TRIGGER_PHRASES, ¬ pe.1.data <:+: pyLower text) →
      _extract_trigger_events text = []) :=
  ⟨nodup_extract text, mem_extract_iff text, extract_eq_nil_of_no_match text⟩

/-- C1 witness: a text with no configured phrase classifies to the empty set. -/
theorem C1_classifier_exact_set_witness :
    _extract_trigger_events "hello there".data = [] :=
  (C1_classifier_exact_set "hello there".data).2.2 (by decide)

/-- C2 counterexample: a finalized transcript containing "shots fired" is a
classification cycle whose matched event set contains `shots_fired`, yet the
transcript handler issues zero outbound-call attempts, while the claim demands
exactly one for every such cycle regardless of channel. -/
theorem C2_transcript_shots_no_call :
    "shots_fired" ∈
      _extract_trigger_events (pyStrip "drop the weapon, shots fired".data) ∧
    dispatchCallCount
      (_on_transcript (some "drop the weapon, shots fired".data) true "room-1")
      = 0 := by
  decide

/-- C2 amended: a text-stream cycle whose matched event set contains
`shots_fired` issues exactly one notify for `shots_fired` and exactly one
outbound-call attempt; a finalized-transcript cycle whose matched set contains
`shots_fired` issues exactly one notify for `shots_fired` and zero
outbound-call attempts. -/
theorem C2_shots_fired_dispatch (text : List Char) (room : String) :
    ("shots_fired" ∈ _extract_trigger_events text →
      notifyCount (_handle_text_stream (some text) room).actions "shots_fired"
          = 1 ∧
      dispatchCallCount (_handle_text_stream (some text) room).actions = 1) ∧
    ("shots_fired" ∈ _extract_trigger_events (pyStrip text) →
      notifyCount (_on_transcript (some text) true room) "shots_fired" = 1 ∧
      dispatchCallCount (_on_transcript (some text) true room) = 0) :=
  ⟨fun hs => ⟨stream_notifyCount_shots hs, stream_dispatchCallCount_shots hs⟩,
   fun hs => ⟨transcript_notifyCount hs, transcript_dispatchCallCount _ _ _⟩⟩

/-- C2 witness: the "drop the weapon, shots fired" text-stream cycle issues
exactly one `shots_fired` notify and exactly one outbound-call attempt. -/
theorem C2_shots_fired_dispatch_witness :
    notifyCount
      (_handle_text_stream (some "drop the weapon, shots fired".data)
        "room-1").actions "shots_fired" = 1 ∧
    dispatchCallCount
      (_handle_text_stream (some "drop the weapon, shots fired".data)
        "room-1").actions = 1 :=
  (C2_shots_fired_dispatch "drop the weapon, shots fired".data "room-1").1
    (by decide)

/-- C3: a non-final transcript revision produces no classification and no
dispatch regardless of content, and a finalized transcript whose text is
empty or whitespace-only is discarded without dispatch. -/
theorem C3_nonfinal_and_blank_discarded (raw : Option (List Char))
    (room : String) :
    _on_transcript raw false room = [] ∧
    (∀ b : Bool, (∀ c ∈ raw.getD [], isPySpace c = true) →
      _on_transcript raw b room = []) :=
  ⟨on_transcript_nonfinal raw room,
   fun b h => on_transcript_blank raw b room (pyStrip_eq_nil_of_all_space h)⟩

/-- C3 witness: "shots fired" with is-final false dispatches nothing, and a
whitespace-only finalized transcript dispatches nothing. -/
theorem C3_nonfinal_and_blank_discarded_witness :
    _on_transcript (some "shots fired".data) false "room-1" = [] ∧
    _on_transcript (some "   ".data) true "room-1" = [] :=
  ⟨(C3_nonfinal_and_blank_discarded (some "shots fired".data) "room-1").1,
   (C3_nonfinal_and_blank_discarded (some "   ".data) "room-1").2 true
     (by decide)⟩

/-- C4: in either kind of classification cycle, each detected event kind other
than `shots_fired` gets exactly one notify, even when several synonymous
phrases matched; a text-stream cycle without `shots_fired` issues zero
outbound-call attempts, and a transcript cycle never issues any. -/
theorem C4_other_kinds_single_notify (text : List Char) (room e : String) :
    (e ∈ _extract_trigger_events text → e ≠ "shots_fired" →
      notifyCount (_handle_text_stream (some text) room).actions e = 1) ∧
    ("shots_fired" ∉ _extract_trigger_events text →
      dispatchCallCount (_handle_text_stream (some text) room).actions = 0) ∧
    (e ∈ _extract_trigger_events (pyStrip text) → e ≠ "shots_fired" →
      notifyCount (_on_transcript (some text) true room) e = 1) ∧
    dispatchCallCount (_on_transcript (some text) true room) = 0 :=
  ⟨fun he hne => stream_notifyCount_other he hne,
   fun hs => stream_dispatchCallCount_noshots text room hs,
   fun he _ => transcript_notifyCount he,
   transcript_dispatchCallCount _ _ _⟩

/-- C4 witness: the payload "camera blocked, camera obscured" yields exactly
one `camera_blocked` notify (deduplicated across the two synonymous phrases)
and zero outbound-call attempts. -/
theorem C4_other_kinds_single_notify_witness :
    notifyCount
      (_handle_text_stream (some "camera blocked, camera obscured".data)
        "room-1").actions "camera_blocked" = 1 ∧
    dispatchCallCount
      (_handle_text_stream (some "camera blocked, camera obscured".data)
        "room-1").actions = 0 :=
  ⟨(C4_other_kinds_single_notify "camera blocked, camera obscured".data
      "room-1" "camera_blocked").1 (by decide) (by decide),
   (C4_other_kinds_single_notify "camera blocked, camera obscured".data
      "room-1" "camera_blocked").2.1 (by decide)⟩

/-- C5: with a configured base URL, `_send_event_to_chain` makes exactly one
POST attempt (never retried); a response status below 300 is classified as
published, a status of 300 or more as a logged failure, and a transport
exception as a logged failure; in every case it returns a `NotifyRun` value
normally rather than raising. -/
theorem C5_notify_outcome_policy (base_url : String) (outcome : PostOutcome)
    (hb : base_url ≠ "") :
    (_send_event_to_chain base_url outcome).postAttempts = 1 ∧
    (∀ st body, outcome = PostOutcome.response st body →
      ((_send_event_to_chain base_url outcome).result =
        NotifyResult.published st ↔ st < 300)) ∧
    (∀ st body, outcome = PostOutcome.response st body → 300 ≤ st →
      (_send_event_to_chain base_url outcome).result =
        NotifyResult.failedStatus st) ∧
    (∀ m, outcome = PostOutcome.exn m →
      (_send_event_to_chain base_url outcome).result =
        NotifyResult.failedExn m) := by
  refine ⟨?_, ?_, ?_, ?_⟩
  · cases outcome with
    | response st body => by_cases h : 300 ≤ st <;> simp [_send_event_to_chain, hb, h]
    | exn m => simp [_send_event_to_chain, hb]
  · rintro st body rfl
    by_cases h : 300 ≤ st
    · simp [_send_event_to_chain, hb, h]
    · simp [_send_event_to_chain, hb, h]
      omega
  · rintro st body rfl h
    simp [_send_event_to_chain, hb, h]
  · rintro m rfl
    simp [_send_event_to_chain, hb]

/-- C5 witness: a 500 response is one attempt classified as a logged failure. -/
theorem C5_notify_outcome_policy_witness :
    (_send_event_to_chain "https://clearance-phi.vercel.app"
      (PostOutcome.response 500 "err")).postAttempts = 1 ∧
    (_send_event_to_chain "https://clearance-phi.vercel.app"
      (PostOutcome.response 500 "err")).result = NotifyResult.failedStatus 500 :=
  ⟨(C5_notify_outcome_policy "https://clearance-phi.vercel.app"
      (PostOutcome.response 500 "err") (by decide)).1,
   (C5_notify_outcome_policy "https://clearance-phi.vercel.app"
      (PostOutcome.response 500 "err") (by decide)).2.2.1 500 "err" rfl
     (by decide)⟩

/-- C6: `_dispatch_outbound_call` fails with the distinct trunk-configuration
error exactly when the trunk identifier is absent or empty, in which case no
provisioning request value is built; and the `shots_fired` notify of the same
cycle is issued independently of the trunk configuration. -/
theorem C6_missing_trunk_fatal (trunk_env room_name sip_room_env : Option String)
    (now : Nat) :
    ((trunk_env = none ∨ trunk_env = some "") →
      _dispatch_outbound_call trunk_env room_name sip_room_env now =
        Except.error "Missing LIVEKIT_SIP_TRUNK_ID for outbound SIP calls.") ∧
    (∀ msg, _dispatch_outbound_call trunk_env room_name sip_room_env now =
        Except.error msg → trunk_env = none ∨ trunk_env = some "") ∧
    (∀ text room, "shots_fired" ∈ _extract_trigger_events text →
      notifyCount (_handle_text_stream (some text) room).actions "shots_fired"
        = 1) := by
  refine ⟨?_, ?_, fun text room hs => stream_notifyCount_shots hs⟩
  · rintro (rfl | rfl) <;> simp [_dispatch_outbound_call]
  · intro msg hmsg
    cases trunk_env with
    | none => exact Or.inl rfl
    | some t =>
      by_cases h : t = ""
      · exact Or.inr (by rw [h])
      · simp [_dispatch_outbound_call, h] at hmsg

/-- C6 witness: with no trunk configured, the call-dispatch attempt fails with
the configuration error while the notify of the same cycle is still issued. -/
theorem C6_missing_trunk_fatal_witness :
    _dispatch_outbound_call none (some "room-1") none 100 =
      Except.error "Missing LIVEKIT_SIP_TRUNK_ID for outbound SIP calls." ∧
    notifyCount
      (_handle_text_stream (some "shots fired".data) "room-1").actions
      "shots_fired" = 1 :=
  ⟨(C6_missing_trunk_fatal none (some "room-1") none 100).1 (Or.inl rfl),
   (C6_missing_trunk_fatal none (some "room-1") none 100).2.2
     "shots fired".data "room-1" (by decide)⟩

/-- C7: a text-stream cycle whose read fails is abandoned with only the two
log lines: no dispatch action of any kind is issued. -/
theorem C7_read_failure_log_only (room : String) :
    (_handle_text_stream none room).actions = [] ∧
    (_handle_text_stream none room).logs =
      ["Text stream received", "Text stream read failed"] :=
  ⟨rfl, rfl⟩

/-- C9 counterexample: two distinct call attempts in the same whole second
(here: different target rooms, both at timestamp 100) build provisioning
requests with the same participant identity, refuting uniqueness across all
distinct attempts. -/
theorem C9_same_second_identity_collision :
    callRequestRoom
        (_dispatch_outbound_call (some "trunk-1") (some "room-a") none 100) ≠
      callRequestRoom
        (_dispatch_outbound_call (some "trunk-1") (some "room-b") none 100) ∧
    callRequestIdentity
        (_dispatch_outbound_call (some "trunk-1") (some "room-a") none 100) =
      callRequestIdentity
        (_dispatch_outbound_call (some "trunk-1") (some "room-b") none 100) := by
  decide

/-- C9 amended: the participant identity of every built provisioning request
is derived from the whole-second timestamp of the attempt, and two attempts
whose whole-second timestamps differ get distinct identities; attempts within
the same second collide. -/
theorem C9_identity_unique_per_second :
    (∀ trunk room env now r,
      _dispatch_outbound_call trunk room env now = Except.ok r →
      r.participant_identity = participant_identity_of now) ∧
    (∀ n m : Nat, n ≠ m →
      participant_identity_of n ≠ participant_identity_of m) := by
  constructor
  · intro trunk room env now r hr
    cases trunk with
    | none => simp [_dispatch_outbound_call] at hr
    | some t =>
      by_cases h : t = ""
      · simp [_dispatch_outbound_call, h] at hr
      · simp only [_dispatch_outbound_call, if_neg h, Except.ok.injEq] at hr
        rw [← hr]
  · exact fun n m hnm => participant_identity_injective hnm

/-- C9 witness: attempts one second apart get distinct identities. -/
theorem C9_identity_unique_per_second_witness :
    participant_identity_of 100 ≠ participant_identity_of 101 :=
  C9_identity_unique_per_second.2 100 101 (by decide)

/-- C10: classification is monotone under concatenation — every event kind
detected in a text is still detected after appending more text on either
side. -/
theorem C10_classifier_monotone (a b : List Char) (e : String)
    (h : e ∈ _extract_trigger_events a) :
    e ∈ _extract_trigger_events (a ++ b) ∧
    e ∈ _extract_trigger_events (b ++ a) := by
  obtain ⟨p, hmem, hinf⟩ := (mem_extract_iff a e).mp h
  obtain ⟨s, t, hst⟩ := hinf
  constructor
  · refine (mem_extract_iff _ e).mpr ⟨p, hmem, s, t ++ pyLower b, ?_⟩
    have hl : pyLower (a ++ b) = pyLower a ++ pyLower b := by simp [pyLower]
    rw [hl, ← hst]
    simp
  · refine (mem_extract_iff _ e).mpr ⟨p, hmem, pyLower b ++ s, t, ?_⟩
    have hl : pyLower (b ++ a) = pyLower b ++ pyLower a := by simp [pyLower]
    rw [hl, ← hst]
    simp

/-- C10 witness: `man_down` detected in "man down" stays detected after
appending text on either side. -/
theorem C10_classifier_monotone_witness :
    "man_down" ∈ _extract_trigger_events ("man down".data ++ ", hold".data) ∧
    "man_down" ∈ _extract_trigger_events (", hold".data ++ "man down".data) :=
  C10_classifier_monotone "man down".data ", hold".data "man_down" (by decide)

end Agent
